import Mathlib

/-!
Verification of the SafetyWatch incident-reporting application
(safe-neighborhood-watch).

The application is a thin React client over a hosted tabular store
(Supabase).  The definitions below are a shallow embedding of the
incident data model and of the store operations performed by the client
code:

* `src/pages/Index.tsx` — public feed query (`fetchIncidents`) and report
  submission (`handleNewReport`);
* `src/components/ReportForm.tsx` — client-side field validation
  (`handleSubmit`);
* `src/pages/Admin.tsx` — the admin dashboard: filtered, searched, sorted
  and paginated listing (`fetchIncidents`), status update
  (`updateIncidentStatus`), deletion (`deleteIncident`,
  `bulkDeleteSelected`), page-count computation (`totalPages`) and the
  per-page statistics (`stats`).

The remote store is modelled as a list of rows; the generic query
operations sent to it (`eq`, `or`+`ilike`, `order`, `range`, `count`,
`insert`, `update`, `delete`, `in`) are modelled by list filtering,
stable insertion sort, slicing, counting, appending, mapping and
removal.  Timestamps and ids are natural numbers.  The `order` clause is
modelled as a stable sort on `created_at`, matching the contract's
"ties broken by insertion order".
-/

namespace SafetyWatch

/-- Moderation status of an incident (`IncidentRow.status` in Admin.tsx). -/
inductive Status where
  | pending
  | approved
  | rejected
deriving DecidableEq, Repr

/-- A row of the `incidents` table (`IncidentRow` in Admin.tsx). -/
structure Incident where
  id : Nat
  user_id : Nat
  type : String
  title : String
  description : String
  location : String
  status : Status
  created_at : Nat
  updated_at : Nat
deriving DecidableEq, Repr

/-- The identity produced by the auth collaborator (`useAuth`): an id plus
the boolean admin capability. -/
structure User where
  id : Nat
  isAdmin : Bool
deriving DecidableEq, Repr

/-- The report payload collected by ReportForm (`formData`). -/
structure Report where
  type : String
  title : String
  description : String
  location : String
deriving DecidableEq, Repr

/-- Error taxonomy of the incident-store contract (spec section 7).
`StoreUnavailable` (transport failure) is not modelled. -/
inductive StoreError where
  | unauthenticated
  | authorizationError
  | validationError
  | notFoundError
  | invalidTransition
deriving DecidableEq, Repr

/-- Whitespace recognised by the `trim()` used on the search input. -/
def wsChar (c : Char) : Bool :=
  c == ' ' || c == '\t' || c == '\n' || c == '\r'

/-- Character-level embedding of JavaScript `String.prototype.trim`:
drop whitespace from both ends of the string. -/
def trimChars (s : String) : List Char :=
  ((s.data.reverse.dropWhile wsChar).reverse).dropWhile wsChar

/-- Does the first character list occur at the head of the second one? -/
def leadMatch : List Char → List Char → Bool
  | [], _ => true
  | _ :: _, [] => false
  | a :: as, b :: bs => a == b && leadMatch as bs

/-- Does the first character list occur contiguously anywhere inside the
second one? -/
def occursIn (n : List Char) : List Char → Bool
  | [] => leadMatch n []
  | b :: bs => leadMatch n (b :: bs) || occursIn n bs

/-- Case-insensitive "contains" — the semantics of the SQL pattern
`ilike %needle%` sent by Admin.tsx for a needle with no wildcard
metacharacters. -/
def ciContains (needle hay : List Char) : Bool :=
  occursIn (needle.map Char.toLower) (hay.map Char.toLower)

/-- Status filter of the admin listing.  The dashboard's `statusFilter`
string is `"all"` (embedded as `none`) or one of the three status names
(embedded as `some s`); `eq("status", statusFilter)` is added to the
query only when the filter is not `"all"` (Admin.tsx line 98). -/
def matchesStatus (f : Option Status) (i : Incident) : Bool :=
  match f with
  | none => true
  | some s => i.status == s

/-- Search filter of the admin listing (Admin.tsx lines 101–105): when
`search.trim()` is nonempty, the query demands an `ilike %q%` match of
the trimmed text against title, description or location. -/
def matchesSearch (search : String) (i : Incident) : Bool :=
  let t := trimChars search
  if t.isEmpty then true
  else
    ciContains t i.title.data || ciContains t i.description.data ||
      ciContains t i.location.data

/-- Combined row predicate of the admin listing query. -/
def incidentPred (f : Option Status) (search : String) (i : Incident) : Bool :=
  matchesStatus f i && matchesSearch search i

/-- Comparison used by `order("created_at", { ascending: !sortDesc })`. -/
def createdLE (sortDesc : Bool) (a b : Incident) : Prop :=
  match sortDesc with
  | true => b.created_at ≤ a.created_at
  | false => a.created_at ≤ b.created_at

instance createdLEDec (sd : Bool) : DecidableRel (createdLE sd) := fun a b =>
  match sd with
  | true => inferInstanceAs (Decidable (b.created_at ≤ a.created_at))
  | false => inferInstanceAs (Decidable (a.created_at ≤ b.created_at))

/-- Page size fixed by the dashboard (`perPage`, Admin.tsx line 70). -/
def perPage : Nat := 8

/-- The filtered (unsorted, unsliced) result set of the admin listing. -/
def fullFiltered (store : List Incident) (f : Option Status) (search : String) :
    List Incident :=
  store.filter (incidentPred f search)

/-- The filtered and sorted result set of the admin listing, before the
`range` slice is applied. -/
def fullSorted (store : List Incident) (f : Option Status) (search : String)
    (sortDesc : Bool) : List Incident :=
  List.insertionSort (createdLE sortDesc) (fullFiltered store f search)

/-- Embedding of the query builder's `range(a, b)` (inclusive bounds). -/
def rangeSlice {α : Type _} (a b : Nat) (l : List α) : List α :=
  (l.drop a).take (b + 1 - a)

/-- Rows returned by Admin.tsx `fetchIncidents` for a 1-based page index:
`range((page - 1) * perPage, page * perPage - 1)` applied to the sorted,
filtered sequence. -/
def fetchRows (store : List Incident) (f : Option Status) (search : String)
    (sortDesc : Bool) (page : Nat) : List Incident :=
  rangeSlice ((page - 1) * perPage) (page * perPage - 1)
    (fullSorted store f search sortDesc)

/-- The `count: "exact"` value returned with the listing: the size of the
full filtered set, not of the returned page. -/
def fetchCount (store : List Incident) (f : Option Status) (search : String) :
    Nat :=
  (fullFiltered store f search).length

/-- Page count of the first Admin variant (Admin.tsx line 207):
`Math.max(1, Math.ceil((totalCount || 0) / perPage))`. -/
def totalPages (totalCount : Nat) : Nat :=
  max 1 ((totalCount + perPage - 1) / perPage)

/-- Page count of the second Admin variant (Admin.tsx line 675):
`Math.ceil(totalCount / perPage)` — note the missing minimum of 1. -/
def totalPagesV2 (totalCount : Nat) : Nat :=
  (totalCount + perPage - 1) / perPage

/-- Dashboard statistic `stats.pending` (Admin.tsx lines 131–137): the
pending rows are counted among the rows of the currently fetched page
only. -/
def statsPending (store : List Incident) (f : Option Status) (search : String)
    (sortDesc : Bool) (page : Nat) : Nat :=
  ((fetchRows store f search sortDesc page).filter
    (fun i => i.status == Status.pending)).length

/-- Dashboard statistic `stats.approved`, likewise page-local. -/
def statsApproved (store : List Incident) (f : Option Status) (search : String)
    (sortDesc : Bool) (page : Nat) : Nat :=
  ((fetchRows store f search sortDesc page).filter
    (fun i => i.status == Status.approved)).length

/-- Dashboard statistic `stats.total`: the server-side `totalCount` for
the current filter. -/
def statsTotal (store : List Incident) (f : Option Status) (search : String) :
    Nat :=
  fetchCount store f search

/-- Effect of `update({ status: newStatus }).eq("id", id)` on one row. -/
def applyStatus (tid : Nat) (st : Status) (i : Incident) : Incident :=
  if i.id = tid then { i with status := st } else i

/-- Embedding of `updateIncidentStatus` (Admin.tsx lines 140–165 and the
same function in the other Admin variants): the client sends an
unconditional `update({ status: newStatus }).eq("id", id)`.  The generic
tabular store applies it to every matching row; no precondition on the
current status and no capability check appear anywhere on this path, so
no business-rule error can be produced (only a transport failure, which
is not modelled). -/
def updateIncidentStatus (store : List Incident) (tid : Nat) (st : Status) :
    Except StoreError (List Incident) :=
  Except.ok (store.map (applyStatus tid st))

/-- Route guard of the admin page (Admin.tsx lines 75–79): navigate away
when there is no user or the user is not an admin.  This redirect is the
only admin-capability enforcement in the client code. -/
def adminRouteRedirects (user : Option User) (isAdmin : Bool) : Bool :=
  user.isNone || !isAdmin

/-- Embedding of `deleteIncident`: `delete().eq("id", id)`. -/
def deleteIncident (store : List Incident) (tid : Nat) : List Incident :=
  store.filter (fun i => !(i.id == tid))

/-- Embedding of `bulkDeleteSelected` (Admin.tsx lines 190–205): an empty
id list returns immediately; otherwise `delete().in("id", ids)` removes
every row whose id is in the list, and the reported count is
`ids.length` (the toast says "Removed N incidents" for the number of
requested ids, not the number of rows that existed). -/
def bulkDeleteSelected (store : List Incident) (ids : List Nat) :
    List Incident × Nat :=
  if ids.length = 0 then (store, 0)
  else (store.filter (fun i => !(ids.contains i.id)), ids.length)

/-- Embedding of the public feed query (Index.tsx `fetchIncidents`):
`select().eq("status", "approved").order("created_at", desc)`. -/
def publicFeedQuery (store : List Incident) : List Incident :=
  List.insertionSort (createdLE true)
    (store.filter (fun i => i.status == Status.approved))

/-- The closed enumeration of incident types (the union type in the
insert of Index.tsx and the options of ReportForm's select). -/
def incidentTypes : List String :=
  ["suspicious", "theft", "vandalism", "assault", "noise", "emergency",
    "road_hazard", "other"]

/-- Membership in the closed type enumeration. -/
def validType (ty : String) : Bool := incidentTypes.contains ty

/-- ReportForm's client-side validation condition (ReportForm lines
32–35): some of the four fields is the empty string. -/
def emptyFieldCheck (r : Report) : Bool :=
  r.type.data.isEmpty || r.title.data.isEmpty || r.description.data.isEmpty ||
    r.location.data.isEmpty

/-- Modelled from the spec: the insert issued by `handleNewReport`
supplies only `user_id` and the four report fields; the `incidents`
table schema (a database migration that is not among the source files)
assigns `status = pending` by default, assigns the server-side `id` and
`created_at`, and rejects a `type` value outside the closed enumeration
with a validation error. -/
def insertedRow (newId createdAt uid : Nat) (r : Report) : Incident :=
  { id := newId, user_id := uid, type := r.type, title := r.title,
    description := r.description, location := r.location,
    status := Status.pending, created_at := createdAt,
    updated_at := createdAt }

/-- Modelled from the spec: the insert into the `incidents` table accepts
the row when its type is in the closed enumeration and rejects it with a
validation error otherwise (the enum column constraint lives in the
database schema, which is not among the source files). -/
def storeInsert (store : List Incident) (newId createdAt : Nat) (uid : Nat)
    (r : Report) : Except StoreError (List Incident) :=
  if validType r.type then
    Except.ok (store ++ [insertedRow newId createdAt uid r])
  else Except.error StoreError.validationError

/-- Embedding of `handleNewReport` (Index.tsx lines 55–83): with no
authenticated user the report is not inserted (the caller is redirected
to sign-in); otherwise the row is inserted with
`user_id = user.id`. -/
def handleNewReport (user : Option User) (r : Report) (store : List Incident)
    (newId createdAt : Nat) : Except StoreError (List Incident) :=
  match user with
  | none => Except.error StoreError.unauthenticated
  | some u => storeInsert store newId createdAt u.id r

/-- Embedding of the submit path: ReportForm's `handleSubmit` rejects the
report when any of the four fields is empty, and otherwise hands it to
`handleNewReport`. -/
def handleSubmit (user : Option User) (r : Report) (store : List Incident)
    (newId createdAt : Nat) : Except StoreError (List Incident) :=
  if emptyFieldCheck r then Except.error StoreError.validationError
  else handleNewReport user r store newId createdAt

/-- The store state after a submit attempt: unchanged on any error. -/
def submitEffect (user : Option User) (r : Report) (store : List Incident)
    (newId createdAt : Nat) : List Incident :=
  match handleSubmit user r store newId createdAt with
  | Except.ok s => s
  | Except.error _ => store

/-- Search predicate written exactly as the claim words it: the raw
search text (no trimming) occurs case-insensitively as a substring of
title, description or location. -/
def specSearchHit (q : String) (i : Incident) : Bool :=
  ciContains q.data i.title.data || ciContains q.data i.description.data ||
    ciContains q.data i.location.data

/-- A pending incident, the report of spec scenario A. -/
def pendingBike : Incident :=
  { id := 0, user_id := 1, type := "theft", title := "Bike stolen",
    description := "Locked bike taken from porch", location := "5th and Elm",
    status := Status.pending, created_at := 10, updated_at := 10 }

/-- The same incident after approval. -/
def approvedBike : Incident := { pendingBike with status := Status.approved }

/-- The same incident after rejection. -/
def rejectedBike : Incident := { pendingBike with status := Status.rejected }

/-- An authenticated identity without the admin capability. -/
def nonAdminUser : User := { id := 7, isAdmin := false }

/-- An approved incident whose three text fields contain no space. -/
def plainIncident : Incident :=
  { id := 4, user_id := 2, type := "noise", title := "x", description := "y",
    location := "z", status := Status.approved, created_at := 3,
    updated_at := 3 }

/-- A pending incident with the given id and timestamp. -/
def mkPending (n : Nat) : Incident :=
  { id := n, user_id := 0, type := "other", title := "t", description := "d",
    location := "l", status := Status.pending, created_at := n,
    updated_at := n }

/-- Nine pending incidents: more than one page at page size 8. -/
def storeNine : List Incident := (List.range 9).map mkPending

/-- A report whose four fields are nonempty but whose type lies outside
the closed enumeration. -/
def badTypeReport : Report :=
  { type := "burglary", title := "t", description := "d", location := "l" }

/-- The valid report of spec scenario A. -/
def reportBike : Report :=
  { type := "theft", title := "Bike stolen",
    description := "Locked bike taken from porch", location := "5th and Elm" }

/-- A list is pointwise related to its image under a map whenever the
relation holds between every element and its image. -/
theorem forall2_map_self {α β : Type _} (R : α → β → Prop) (f : α → β)
    (h : ∀ a, R a (f a)) : ∀ l : List α, List.Forall₂ R l (l.map f)
  | [] => List.Forall₂.nil
  | a :: l => List.Forall₂.cons (h a) (forall2_map_self R f h l)

/-- Concatenating the consecutive chunks of size `s` numbered `0..n-1`
of a list yields its first `n * s` elements. -/
theorem flatten_chunks {α : Type _} (s : Nat) :
    ∀ (n : Nat) (l : List α),
      ((List.range n).map (fun j => (l.drop (j * s)).take s)).flatten =
        l.take (n * s) := by
  intro n
  induction n with
  | zero => intro l; simp
  | succ m ih =>
    intro l
    rw [List.range_succ, List.map_append, List.flatten_append]
    simp only [List.map_cons, List.map_nil, List.flatten_cons,
      List.flatten_nil, List.append_nil]
    rw [ih l, Nat.succ_mul, List.take_add]

/-- The page count of the first Admin variant covers the whole result:
`totalCount` rows fit in `totalPages totalCount` pages of size 8. -/
theorem le_totalPages_mul (c : Nat) : c ≤ totalPages c * perPage := by
  unfold totalPages perPage
  have h1 : c ≤ ((c + 8 - 1) / 8) * 8 := by omega
  have h2 : ((c + 8 - 1) / 8) * 8 ≤ max 1 ((c + 8 - 1) / 8) * 8 :=
    Nat.mul_le_mul_right 8 (Nat.le_max_right 1 ((c + 8 - 1) / 8))
  exact le_trans h1 h2

/-- Splitting a list by a boolean predicate splits its length. -/
theorem length_filter_split {α : Type _} (p : α → Bool) :
    ∀ l : List α,
      (l.filter p).length + (l.filter (fun a => !(p a))).length = l.length := by
  intro l
  induction l with
  | nil => simp
  | cons a t ih =>
    cases h : p a <;> simp [List.filter_cons, h] <;> omega

/-- C1: the spec requires a `setStatus` call on a non-pending incident to
fail with `InvalidTransition` and leave the incident unchanged; the code
instead issues an unconditional update, so approving an already-approved
incident silently succeeds, and approving a rejected incident silently
succeeds and changes its status. -/
theorem C1_counterexample :
    updateIncidentStatus [pendingBike] 0 Status.approved =
      Except.ok [approvedBike] ∧
    updateIncidentStatus [approvedBike] 0 Status.approved =
      Except.ok [approvedBike] ∧
    updateIncidentStatus [rejectedBike] 0 Status.approved =
      Except.ok [approvedBike] ∧
    approvedBike.status ≠ Status.pending :=
  ⟨rfl, rfl, rfl, by decide⟩

/-- C1 amended: `updateIncidentStatus` performs no transition check at
all: for every store, id and target status the call succeeds — it can
never return an error such as `InvalidTransition` — every row whose id
matches receives the new status with all its other fields intact, and
every other row is unchanged. -/
theorem C1_no_transition_check (store : List Incident) (tid : Nat)
    (st : Status) :
    (∀ e : StoreError, updateIncidentStatus store tid st ≠ Except.error e) ∧
    ∃ s', updateIncidentStatus store tid st = Except.ok s' ∧
      List.Forall₂ (fun i j =>
        j.id = i.id ∧ j.user_id = i.user_id ∧ j.type = i.type ∧
        j.title = i.title ∧ j.description = i.description ∧
        j.location = i.location ∧ j.created_at = i.created_at ∧
        (i.id = tid → j.status = st) ∧ (i.id ≠ tid → j = i)) store s' := by
  constructor
  · intro e h
    exact Except.noConfusion h
  · refine ⟨store.map (applyStatus tid st), rfl, ?_⟩
    apply forall2_map_self
    intro a
    by_cases h : a.id = tid
    · simp [applyStatus, h]
    · simp [applyStatus, h]

/-- C2: the spec requires `setStatus` without the admin capability to
fail with `AuthorizationError` and leave the status unchanged; the
client's only enforcement is the route guard that redirects non-admins
away from the admin page, while the update operation itself takes no
acting user at all — invoked for a non-admin it succeeds and changes
the status. -/
theorem C2_counterexample :
    nonAdminUser.isAdmin = false ∧
    adminRouteRedirects (some nonAdminUser) nonAdminUser.isAdmin = true ∧
    updateIncidentStatus [pendingBike] 0 Status.rejected =
      Except.ok [rejectedBike] ∧
    rejectedBike.status ≠ pendingBike.status :=
  ⟨rfl, rfl, rfl, by decide⟩

/-- C2 amended: the admin capability is enforced only by the admin-page
route guard, which redirects exactly the callers lacking the capability;
the status-update operation itself consults no user and can never return
an error, so for every acting user it succeeds with the unconditional
update applied. -/
theorem C2_no_capability_check (u : User) (store : List Incident) (tid : Nat)
    (st : Status) :
    adminRouteRedirects (some u) u.isAdmin = !u.isAdmin ∧
    (∀ e : StoreError, updateIncidentStatus store tid st ≠ Except.error e) ∧
    updateIncidentStatus store tid st =
      Except.ok (store.map (applyStatus tid st)) := by
  refine ⟨?_, ?_, rfl⟩
  · cases h : u.isAdmin <;> simp [adminRouteRedirects, h]
  · intro e h
    exact Except.noConfusion h

/-- C3: the public feed query returns exactly the approved incidents:
a row appears in the feed result if and only if it is in the store and
its status is `approved`; no pending or rejected incident appears. -/
theorem C3_public_feed_approved (store : List Incident) (i : Incident) :
    i ∈ publicFeedQuery store ↔ i ∈ store ∧ i.status = Status.approved := by
  unfold publicFeedQuery
  rw [List.mem_insertionSort, List.mem_filter]
  simp

/-- C4: a submit by an authenticated user with all four fields nonempty
and a type from the closed enumeration creates exactly one new incident,
with `status = pending`, `user_id` equal to the submitting user's id,
the server-assigned id and timestamp, and the report's four fields. -/
theorem C4_submit_creates_pending (u : User) (r : Report)
    (store : List Incident) (newId createdAt : Nat)
    (hty : r.type.data.isEmpty = false) (hti : r.title.data.isEmpty = false)
    (hde : r.description.data.isEmpty = false)
    (hlo : r.location.data.isEmpty = false) (hval : validType r.type = true) :
    ∃ inc : Incident,
      handleSubmit (some u) r store newId createdAt =
        Except.ok (store ++ [inc]) ∧
      inc.status = Status.pending ∧ inc.user_id = u.id ∧ inc.id = newId ∧
      inc.created_at = createdAt ∧ inc.type = r.type ∧ inc.title = r.title ∧
      inc.description = r.description ∧ inc.location = r.location := by
  refine ⟨insertedRow newId createdAt u.id r, ?_, rfl, rfl, rfl, rfl, rfl,
    rfl, rfl, rfl⟩
  unfold handleSubmit emptyFieldCheck handleNewReport storeInsert
  simp [hty, hti, hde, hlo, hval]

/-- C4 witness: submitting the scenario-A theft report as user 7 into an
empty store yields the pending incident row for that user. -/
theorem C4_submit_creates_pending_witness :
    reportBike.type.data.isEmpty = false ∧
    reportBike.title.data.isEmpty = false ∧
    reportBike.description.data.isEmpty = false ∧
    reportBike.location.data.isEmpty = false ∧
    validType reportBike.type = true ∧
    ∃ inc : Incident,
      handleSubmit (some nonAdminUser) reportBike [] 0 10 =
        Except.ok ([] ++ [inc]) ∧
      inc.status = Status.pending ∧ inc.user_id = nonAdminUser.id ∧
      inc.id = 0 ∧ inc.created_at = 10 ∧ inc.type = reportBike.type ∧
      inc.title = reportBike.title ∧ inc.description = reportBike.description ∧
      inc.location = reportBike.location :=
  ⟨by decide, by decide, by decide, by decide, by decide,
    C4_submit_creates_pending nonAdminUser reportBike [] 0 10 (by decide)
      (by decide) (by decide) (by decide) (by decide)⟩

/-- C5: a submit whose input has an empty field or a type outside the
closed enumeration creates no incident — the store is unchanged and the
call returns an error — and for an authenticated caller that error is
the validation error (an unauthenticated caller with nonempty fields is
rejected earlier with `Unauthenticated`, the spec's separate
precondition). -/
theorem C5_invalid_submit_rejected (user : Option User) (r : Report)
    (store : List Incident) (newId createdAt : Nat)
    (hbad : emptyFieldCheck r = true ∨ validType r.type = false) :
    submitEffect user r store newId createdAt = store ∧
    (∃ e : StoreError,
      handleSubmit user r store newId createdAt = Except.error e) ∧
    (∀ u : User, user = some u →
      handleSubmit user r store newId createdAt =
        Except.error StoreError.validationError) := by
  rcases hbad with h | h
  · refine ⟨?_, ⟨StoreError.validationError, ?_⟩, ?_⟩
    · simp [submitEffect, handleSubmit, h]
    · simp [handleSubmit, h]
    · intro u hu
      simp [handleSubmit, h]
  · by_cases hemp : emptyFieldCheck r = true
    · refine ⟨?_, ⟨StoreError.validationError, ?_⟩, ?_⟩
      · simp [submitEffect, handleSubmit, hemp]
      · simp [handleSubmit, hemp]
      · intro u hu
        simp [handleSubmit, hemp]
    · have hemp' : emptyFieldCheck r = false := by
        cases hx : emptyFieldCheck r
        · rfl
        · exact absurd hx hemp
      cases user with
      | none =>
        refine ⟨?_, ⟨StoreError.unauthenticated, ?_⟩, ?_⟩
        · simp [submitEffect, handleSubmit, hemp', handleNewReport]
        · simp [handleSubmit, hemp', handleNewReport]
        · intro u hu
          exact Option.noConfusion hu
      | some u =>
        refine ⟨?_, ⟨StoreError.validationError, ?_⟩, ?_⟩
        · simp [submitEffect, handleSubmit, hemp', handleNewReport,
            storeInsert, h]
        · simp [handleSubmit, hemp', handleNewReport, storeInsert, h]
        · intro v hv
          simp [handleSubmit, hemp', handleNewReport, storeInsert, h]

/-- C5 witness: a report with nonempty fields but type "burglary", which
is outside the enumeration, is rejected with the validation error and
leaves the one-row store unchanged. -/
theorem C5_invalid_submit_rejected_witness :
    (emptyFieldCheck badTypeReport = true ∨
      validType badTypeReport.type = false) ∧
    (submitEffect (some nonAdminUser) badTypeReport [plainIncident] 9 9 =
        [plainIncident] ∧
      (∃ e : StoreError,
        handleSubmit (some nonAdminUser) badTypeReport [plainIncident] 9 9 =
          Except.error e) ∧
      (∀ u : User, some nonAdminUser = some u →
        handleSubmit (some nonAdminUser) badTypeReport [plainIncident] 9 9 =
          Except.error StoreError.validationError)) :=
  ⟨by decide,
    C5_invalid_submit_rejected (some nonAdminUser) badTypeReport
      [plainIncident] 9 9 (by decide)⟩

/-- C6: the admin listing is a consistent slice of one underlying sorted
and filtered sequence: page `k` (1-based) holds exactly the elements at
positions `[(k-1)*8, k*8)` of that sequence, and concatenating pages `1`
through `totalPages` reproduces the whole sequence, each element exactly
once, no gaps and no duplicates. -/
theorem C6_pages_partition (store : List Incident) (f : Option Status)
    (search : String) (sortDesc : Bool) :
    ((List.range (totalPages (fetchCount store f search))).map
        (fun j => fetchRows store f search sortDesc (j + 1))).flatten =
      fullSorted store f search sortDesc ∧
    ∀ k : Nat, fetchRows store f search sortDesc (k + 1) =
      ((fullSorted store f search sortDesc).drop (k * perPage)).take
        perPage := by
  have hpage : ∀ k : Nat, fetchRows store f search sortDesc (k + 1) =
      ((fullSorted store f search sortDesc).drop (k * perPage)).take
        perPage := by
    intro k
    unfold fetchRows rangeSlice
    have h0 : (k + 1 - 1) * perPage = k * perPage := by
      simp
    have h8 : (k + 1) * perPage - 1 + 1 - (k + 1 - 1) * perPage = perPage := by
      unfold perPage
      omega
    rw [h8, h0]
  refine ⟨?_, hpage⟩
  have hlen : (fullSorted store f search sortDesc).length =
      fetchCount store f search := by
    unfold fullSorted fetchCount
    exact List.length_insertionSort _ _
  calc ((List.range (totalPages (fetchCount store f search))).map
          (fun j => fetchRows store f search sortDesc (j + 1))).flatten
      = ((List.range (totalPages (fetchCount store f search))).map
          (fun j => ((fullSorted store f search sortDesc).drop
            (j * perPage)).take perPage)).flatten := by
        simp only [hpage]
    _ = (fullSorted store f search sortDesc).take
          (totalPages (fetchCount store f search) * perPage) :=
        flatten_chunks perPage _ _
    _ = fullSorted store f search sortDesc :=
        List.take_of_length_le (by rw [hlen]; exact le_totalPages_mul _)

/-- C7: every page has at most 8 rows and `totalCount` counts the whole
filtered set, and the first Admin variant's page count is the least
number of pages that is at least 1 and covers `totalCount`; but the
claim also covers the second Admin variant (line 675), whose page count
omits the minimum of 1 and is 0 — not 1 — when `totalCount = 0`. -/
theorem C7_counterexample :
    totalPagesV2 0 = 0 ∧ totalPages 0 = 1 ∧ (0 : Nat) ≠ 1 := by
  decide

/-- C7 amended: `rows` has length at most the page size 8; `totalCount`
is the size of the full filtered set; the first variant's page count is
the least `n ≥ 1` with `totalCount ≤ n * 8` (hence 1 when the count is
0); and the second variant agrees with the first whenever the count is
positive, differing only at 0 where it lacks the minimum. -/
theorem C7_rows_count_pages (store : List Incident) (f : Option Status)
    (search : String) (sortDesc : Bool) (page c : Nat) :
    (fetchRows store f search sortDesc page).length ≤ perPage ∧
    fetchCount store f search = store.countP (incidentPred f search) ∧
    1 ≤ totalPages c ∧ c ≤ totalPages c * perPage ∧
    (∀ n : Nat, 1 ≤ n → c ≤ n * perPage → totalPages c ≤ n) ∧
    (0 < c → totalPagesV2 c = totalPages c) := by
  refine ⟨?_, ?_, ?_, le_totalPages_mul c, ?_, ?_⟩
  · unfold fetchRows rangeSlice
    rw [List.length_take]
    refine le_trans (Nat.min_le_left _ _) ?_
    unfold perPage
    omega
  · unfold fetchCount fullFiltered
    rw [List.countP_eq_length_filter]
  · exact Nat.le_max_left _ _
  · intro n h1 h2
    unfold totalPages perPage at *
    omega
  · intro hc
    unfold totalPages totalPagesV2 perPage
    omega

/-- C8: the claim states the membership rule with the raw search text,
but the code trims it first and applies the search filter only when the
trimmed text is nonempty: with the whitespace-only search `" "` the
filter is dropped, so an incident none of whose text fields contains a
space appears in the result even though the raw text `" "` is not a
substring of any of its fields. -/
theorem C8_counterexample :
    (" " : String).data.isEmpty = false ∧
    plainIncident ∈ fullSorted [plainIncident] none " " true ∧
    specSearchHit " " plainIncident = false := by
  decide

/-- C8 amended: an incident is in the unpaginated listing result exactly
when it is in the store, it matches the status filter (`all` embeds as
`none` and matches everything, a concrete status matches by equality),
and — whenever the trimmed search text is nonempty — the trimmed search
text occurs case-insensitively as a substring of its title, description
or location. -/
theorem C8_membership (store : List Incident) (f : Option Status)
    (search : String) (sortDesc : Bool) (i : Incident) :
    i ∈ fullSorted store f search sortDesc ↔
      i ∈ store ∧ matchesStatus f i = true ∧
        ((trimChars search).isEmpty = false →
          (ciContains (trimChars search) i.title.data ||
            ciContains (trimChars search) i.description.data ||
            ciContains (trimChars search) i.location.data) = true) := by
  unfold fullSorted fullFiltered
  rw [List.mem_insertionSort, List.mem_filter]
  unfold incidentPred
  simp only [Bool.and_eq_true]
  constructor
  · rintro ⟨hmem, hst, hse⟩
    refine ⟨hmem, hst, ?_⟩
    intro hne
    simp only [matchesSearch] at hse
    rw [hne] at hse
    simpa using hse
  · rintro ⟨hmem, hst, hse⟩
    refine ⟨hmem, hst, ?_⟩
    simp only [matchesSearch]
    cases he : (trimChars search).isEmpty
    · simpa [he] using hse he
    · simp [he]

/-- C9: the claim says the reported `deletedCount` equals the number of
existing ids actually removed; the code removes the existing ids but
reports the number of requested ids (`ids.length`), so over a set with
one existing and one nonexistent id it reports 2 while only 1 row was
removed. -/
theorem C9_counterexample :
    (bulkDeleteSelected [pendingBike] [0, 5]).2 = 2 ∧
    [pendingBike].length - (bulkDeleteSelected [pendingBike] [0, 5]).1.length
      = 1 ∧
    ¬ (bulkDeleteSelected [pendingBike] [0, 5]).2 =
        [pendingBike].length -
          (bulkDeleteSelected [pendingBike] [0, 5]).1.length := by
  decide

/-- C9 amended: bulk deletion removes exactly the rows whose id is in
the requested set — existing ids are removed, nonexistent ids are
silently skipped and never fail the batch — and an empty id set is a
no-op reported as 0; but for a nonempty set the reported count is the
number of requested ids, which exceeds the number of rows actually
removed when the set mentions nonexistent ids. -/
theorem C9_bulk_delete (store : List Incident) (ids : List Nat) :
    (∀ i : Incident,
      i ∈ (bulkDeleteSelected store ids).1 ↔ i ∈ store ∧ i.id ∉ ids) ∧
    (bulkDeleteSelected store []).1 = store ∧
    (bulkDeleteSelected store []).2 = 0 ∧
    (bulkDeleteSelected store ids).1.length +
        store.countP (fun i => ids.contains i.id) = store.length ∧
    (ids ≠ [] → (bulkDeleteSelected store ids).2 = ids.length) := by
  have hsplit :=
    length_filter_split (fun i : Incident => ids.contains i.id) store
  have hcount :=
    List.countP_eq_length_filter (fun i : Incident => ids.contains i.id) store
  by_cases hids : ids.length = 0
  · have hnil : ids = [] := List.length_eq_zero.mp hids
    subst hnil
    refine ⟨?_, ?_, ?_, ?_, ?_⟩
    · intro i
      simp [bulkDeleteSelected]
    · simp [bulkDeleteSelected]
    · simp [bulkDeleteSelected]
    · simp [bulkDeleteSelected]
    · intro h
      exact absurd rfl h
  · refine ⟨?_, ?_, ?_, ?_, ?_⟩
    · intro i
      simp [bulkDeleteSelected, hids, List.mem_filter, List.contains,
        List.elem_iff]
    · simp [bulkDeleteSelected]
    · simp [bulkDeleteSelected]
    · simp only [bulkDeleteSelected, if_neg hids]
      omega
    · intro h
      simp [bulkDeleteSelected, hids]

/-- C10: the dashboard statistics are computed from the fetched page
only: with nine pending incidents (two pages), page 1 of the unfiltered
listing shows a pending count of 8 while the true pending total is 9,
and the displayed total — the server-side count — is 9. -/
theorem C10_stats_page_local :
    statsPending storeNine none "" true 1 = 8 ∧
    (storeNine.filter (fun i => i.status == Status.pending)).length = 9 ∧
    statsPending storeNine none "" true 1 ≠
      (storeNine.filter (fun i => i.status == Status.pending)).length ∧
    statsTotal storeNine none "" = 9 ∧
    totalPages (statsTotal storeNine none "") = 2 ∧
    (fetchRows storeNine none "" true 1).length = 8 := by
  decide

end SafetyWatch
